import Mathlib

/-!
Shallow embedding of the wildfire dashboard script (`streamlit_app.py`).

The script loads a CSV table of wildfire records, annotates each row with a
census region, computes two group-by aggregates (fires per state, fires per
year per state), links a bar chart to a line chart through a click selection
declared with `empty="none"`, derives a whole-day duration column, drops rows
with missing duration / fire size / cause or a negative duration, and filters
the remaining rows by a state dropdown for the strip and box charts.

Modelling choices:
* a pandas dataframe is a `List Row`; a nullable column is an `Option` field;
* the two date columns are modelled as whole-day numbers (`Option Int`), so
  `(CONTAINMENT_DATE - DISCOVERY_DATE).dt.days` is integer subtraction;
* `FIRE_SIZE` is a float column in the source; only its presence or absence
  is ever branched on, so it is modelled as `Option ℚ`;
* `groupby(ks).size()` is: deduplicated list of the non-null keys, each paired
  with the number of rows carrying that key (pandas drops null keys);
* the Vega-Lite evaluation of the declared click selection (the predicate of
  `alt.selection_point(fields=["STATE"], toggle=True, empty="none")` used by
  `transform_filter` and by the opacity condition) is embedded as a Boolean
  predicate over the set of selected states: with `empty="none"` an empty
  selection matches no data value, a non-empty one matches the selected states.
-/

namespace Wildfire

/-- One row of the loaded wildfire table.  Columns as read by the script;
dates are whole-day numbers, `FIRE_SIZE` a rational (see the file header). -/
structure Row where
  STATE : Option String
  FIRE_YEAR : Int
  DISCOVERY_DATE : Option Int
  CONTAINMENT_DATE : Option Int
  FIRE_SIZE : Option ℚ
  STAT_CAUSE_DESCR : Option String
  FIRE_NAME : Option String
  COUNTY : Option String
  deriving DecidableEq, Repr

/-- A dataframe: a list of rows. -/
abbrev Table := List Row

/-- Lines 25-35: the static census sub-region table, region name paired with
its member state codes, in the source's order. -/
def region_map : List (String × List String) :=
  [("Pacific", ["AK", "CA", "HI", "OR", "WA"]),
   ("Mountain", ["AZ", "CO", "ID", "MT", "NV", "NM", "UT", "WY"]),
   ("West South Central", ["AR", "LA", "OK", "TX"]),
   ("East South Central", ["AL", "KY", "MS", "TN"]),
   ("South Atlantic", ["DE", "DC", "FL", "GA", "MD", "NC", "SC", "VA", "WV"]),
   ("West North Central", ["IA", "KS", "MN", "MO", "NE", "ND", "SD"]),
   ("East North Central", ["IL", "IN", "MI", "OH", "WI"]),
   ("Mid-Atlantic", ["NJ", "NY", "PA"]),
   ("New England", ["CT", "ME", "MA", "NH", "RI", "VT"])]

/-- Line 36: the dict comprehension
`{state: region for region, states in region_map.items() for state in states}`
flattened to (state, region) pairs.  (No state code appears twice, which is
proved below, so first-match lookup agrees with the Python dict.) -/
def state_to_region_pairs : List (String × String) :=
  region_map.flatMap fun p => p.2.map fun s => (s, p.1)

/-- Looking a state code up in the flattened region table; `none` for a code
that is not listed (pandas `.map` of a dict gives NaN there). -/
def state_to_region (s : String) : Option String :=
  state_to_region_pairs.lookup s

/-- Line 37, `data["REGION"] = data["STATE"].map(state_to_region)`: the region
of a row, `none` when the state is null or not in the lookup table. -/
def REGION (r : Row) : Option String :=
  r.STATE.bind state_to_region

/-- The distinct non-null state codes of a table, in first-appearance order
(the group keys of `groupby(["STATE"])`, which drops null keys). -/
def stateKeys (t : Table) : List String :=
  (t.filterMap Row.STATE).dedup

/-- Line 40, `data.groupby(["STATE"]).size().reset_index(name="Fire_Count")`:
one (state, count) pair per distinct non-null state code. -/
def state_counts (t : Table) : List (String × Nat) :=
  (stateKeys t).map fun s => (s, t.countP fun r => r.STATE = some s)

/-- The distinct (year, state) group keys of `groupby(["FIRE_YEAR", "STATE"])`
(rows with a null state carry no key and are dropped by pandas). -/
def yearStateKeys (t : Table) : List (Int × String) :=
  (t.filterMap fun r => r.STATE.map fun s => (r.FIRE_YEAR, s)).dedup

/-- Line 66, `data.groupby(["FIRE_YEAR", "STATE"]).size().reset_index(...)`:
one (year, state, count) triple per distinct observed (year, state) pair. -/
def yearly_trends (t : Table) : List (Int × String × Nat) :=
  (yearStateKeys t).map fun k =>
    (k.1, k.2, t.countP fun r => r.FIRE_YEAR = k.1 ∧ r.STATE = some k.2)

/-- Line 45: the predicate of
`alt.selection_point(fields=["STATE"], toggle=True, empty="none")` applied to
a state value, as the Vega-Lite runtime evaluates it for the current set of
selected states: with `empty="none"` an empty selection matches no data value;
a non-empty selection matches exactly the selected states. -/
def click_selection (sel : List String) (s : String) : Bool :=
  if sel.isEmpty then false else sel.contains s

/-- Line 57, `opacity=alt.condition(click_selection, alt.value(1), alt.value(0.5))`:
the opacity of the bar for state `s` under the selection `sel`. -/
def bar_opacity (sel : List String) (s : String) : ℚ :=
  if click_selection sel s then 1 else 1/2

/-- Lines 68-79: the rows the line chart shows — the yearly trends passed
through `transform_filter(click_selection)`. -/
def line_chart (sel : List String) (t : Table) : List (Int × String × Nat) :=
  (yearly_trends t).filter fun x => click_selection sel x.2.1

/-- Line 99: the derived `DURATION_DAYS` column,
`(data["CONTAINMENT_DATE"] - data["DISCOVERY_DATE"]).dt.days`; subtraction of
a null date gives NaT, hence a missing duration. -/
def DURATION_DAYS (r : Row) : Option Int :=
  match r.CONTAINMENT_DATE, r.DISCOVERY_DATE with
  | some c, some d => some (c - d)
  | _, _ => none

/-- Line 100, `data.dropna(subset=["DURATION_DAYS", "FIRE_SIZE", "STAT_CAUSE_DESCR"])`. -/
def dropna_rows (t : Table) : Table :=
  t.filter fun r =>
    (DURATION_DAYS r).isSome && r.FIRE_SIZE.isSome && r.STAT_CAUSE_DESCR.isSome

/-- Line 101, `data = data[data["DURATION_DAYS"] >= 0]` applied after the
`dropna` of line 100: the table the dropdown views are computed from. -/
def withDuration (t : Table) : Table :=
  (dropna_rows t).filter fun r =>
    match DURATION_DAYS r with
    | some d => decide (0 ≤ d)
    | none => false

/-- Line 104, `["All States"] + sorted(data["STATE"].dropna().unique())`,
where `data` is already the filtered table of lines 99-101. -/
def state_options (t : Table) : List String :=
  "All States" :: List.insertionSort (· ≤ ·) ((withDuration t).filterMap Row.STATE).dedup

/-- Python's `list.index`: the position of the first occurrence of `x`,
`none` when `x` is absent (where Python raises `ValueError`). -/
def pyIndex (x : String) : List String → Option Nat
  | [] => none
  | y :: ys => if y = x then some 0 else (pyIndex x ys).map (· + 1)

/-- Line 106, `st.selectbox(..., options=state_options, index=state_options.index("CA"))`:
the dropdown's initial value — the option at position `state_options.index("CA")` —
or `none` when `list.index` raises because "CA" is not an option. -/
def selected_state_initial (t : Table) : Option String :=
  (pyIndex "CA" (state_options t)).map fun i => (state_options t).getD i "All States"

/-- Line 109,
`scatter_data = data if selected_state == "All States" else data[data["STATE"] == selected_state]`:
the rows the strip and box charts receive for the chosen dropdown value. -/
def scatter_data (t : Table) (selected_state : String) : Table :=
  if selected_state = "All States" then withDuration t
  else (withDuration t).filter fun r => r.STATE = some selected_state

/-- The outputs of one render pass, in the script's statement order. -/
structure Dashboard where
  stateCountsOut : List (String × Nat)
  yearlyTrendsOut : List (Int × String × Nat)
  filteredData : Table
  stateOptionsOut : List String
  scatterDataOut : Table
  deriving Repr

/-- The script's dataflow for a render pass: the two aggregates (lines 40 and
66) are computed from the full annotated table; only afterwards (lines 99-101)
is `data` reassigned to the duration-filtered table, which feeds the dropdown
options and the strip/box data. -/
def runDashboard (t : Table) (selected_state : String) : Dashboard :=
  { stateCountsOut := state_counts t
    yearlyTrendsOut := yearly_trends t
    filteredData := withDuration t
    stateOptionsOut := state_options t
    scatterDataOut := scatter_data t selected_state }

/-- A concrete record used for sanity checks: state `s`, year `y`, a one-day
fire with all optional columns present. -/
def sampleRow (s : String) (y : Int) : Row :=
  ⟨some s, y, some 0, some 1, some 1, some "Lightning", some "FIRE", some "County"⟩

/-- A small concrete table: three CA rows (2000, 2000, 2001), two TX rows (2000). -/
def sampleTable : Table :=
  [sampleRow "CA" 2000, sampleRow "CA" 2000, sampleRow "CA" 2001,
   sampleRow "TX" 2000, sampleRow "TX" 2000]

example : state_counts sampleTable = [("CA", 3), ("TX", 2)] := by decide

example : yearly_trends sampleTable =
    [(2000, "CA", 2), (2001, "CA", 1), (2000, "TX", 2)] := by decide

/-- Helper: `List.lookup` misses every key that is not in the key column. -/
theorem lookup_eq_none_of_not_mem_keys {β : Type} (l : List (String × β)) (s : String)
    (h : s ∉ l.map Prod.fst) : l.lookup s = none := by
  induction l with
  | nil => rfl
  | cons p l ih =>
    obtain ⟨k, b⟩ := p
    simp only [List.map_cons, List.mem_cons, not_or] at h
    have hne : (s == k) = false := beq_eq_false_iff_ne.mpr h.1
    simp [List.lookup, hne, ih h.2]

/-- C6: the region mapping assigns to each of the 51 listed state codes
(50 states plus DC) exactly one of the 9 named census regions, and every
state code that is not listed yields an undefined region (`none`) rather
than an error. -/
theorem region_mapping_total_on_listed_none_otherwise :
    (state_to_region_pairs.map Prod.fst).length = 51 ∧
    (state_to_region_pairs.map Prod.fst).Nodup ∧
    (region_map.map Prod.fst).length = 9 ∧
    (∀ s ∈ state_to_region_pairs.map Prod.fst,
        ∃ reg ∈ region_map.map Prod.fst, state_to_region s = some reg) ∧
    (∀ s : String, s ∉ state_to_region_pairs.map Prod.fst → state_to_region s = none) := by
  refine ⟨by decide, by decide, by decide, by decide, ?_⟩
  intro s hs
  exact lookup_eq_none_of_not_mem_keys _ _ hs

/-- C7 counterexample: the claimed rule "opacity is 1.0 if the state is
selected or the selection is empty, else 0.5" is false: with the selection
declared `empty="none"`, the empty selection gives every bar opacity 0.5
(concretely, the bar for "CA" under the empty selection). -/
theorem bar_opacity_empty_all_claim_false :
    ¬ ∀ (sel : List String) (s : String),
        bar_opacity sel s = if s ∈ sel ∨ sel = [] then 1 else 1/2 := by
  intro h
  have h0 := h [] "CA"
  norm_num [bar_opacity, click_selection] at h0

/-- C7 amended: a bar's opacity is 1.0 exactly when its state is in the
selection set; in particular the empty selection gives every bar 0.5. -/
theorem bar_opacity_eq_selected (sel : List String) (s : String) :
    bar_opacity sel s = if s ∈ sel then 1 else 1/2 := by
  rcases sel with _ | ⟨a, l⟩
  · simp [bar_opacity, click_selection]
  · simp only [bar_opacity, click_selection, List.isEmpty_cons, Bool.false_eq_true,
      if_false]
    by_cases hm : s ∈ a :: l
    · rw [if_pos (List.elem_iff.mpr hm), if_pos hm]
    · rw [if_neg (by simpa using hm), if_neg hm]

/-- C8: with the dropdown on "All States" the strip and box charts receive
every row that survived the null/negative-duration filter; with the dropdown
on any other value they receive exactly the surviving rows of that state. -/
theorem scatter_data_dropdown (t : Table) (sel : String) :
    (sel = "All States" → scatter_data t sel = withDuration t) ∧
    (sel ≠ "All States" →
      ∀ r : Row, r ∈ scatter_data t sel ↔ r ∈ withDuration t ∧ r.STATE = some sel) := by
  constructor
  · intro h
    simp [scatter_data, h]
  · intro h r
    simp [scatter_data, h, List.mem_filter]

/-- C1: the line chart linked through the `empty="none"` click selection shows
zero rows under the empty selection set, exactly the (year, state, count) rows
whose state is in the set under a non-empty set, and in particular exactly the
rows with state "CA" under the singleton selection of "CA". -/
theorem line_chart_selection_semantics (sel : List String) (t : Table) :
    (sel = [] → line_chart sel t = []) ∧
    (sel ≠ [] → ∀ x, x ∈ line_chart sel t ↔ x ∈ yearly_trends t ∧ x.2.1 ∈ sel) ∧
    (∀ x, x ∈ line_chart ["CA"] t ↔ x ∈ yearly_trends t ∧ x.2.1 = "CA") := by
  refine ⟨?_, ?_, ?_⟩
  · intro h
    subst h
    simp [line_chart, click_selection]
  · intro h x
    rcases sel with _ | ⟨a, l⟩
    · exact absurd rfl h
    · simp [line_chart, click_selection, List.mem_filter, List.elem_iff]
  · intro x
    simp [line_chart, click_selection, List.mem_filter, List.elem_iff]

/-- C2: a row is retained by the duration computation and data-quality filter
exactly when it is a row of the input with fire size and cause present, both
dates present, a duration equal to containment minus discovery in whole days,
and that duration non-negative — so every row with a missing duration, size
or cause, or a negative duration, is dropped. -/
theorem withDuration_mem (t : Table) (r : Row) :
    r ∈ withDuration t ↔
      r ∈ t ∧ r.FIRE_SIZE.isSome ∧ r.STAT_CAUSE_DESCR.isSome ∧
      ∃ c d : Int, r.CONTAINMENT_DATE = some c ∧ r.DISCOVERY_DATE = some d ∧
        DURATION_DAYS r = some (c - d) ∧ 0 ≤ c - d := by
  rcases hc : r.CONTAINMENT_DATE with _ | c <;> rcases hd : r.DISCOVERY_DATE with _ | d <;>
    simp [withDuration, dropna_rows, DURATION_DAYS, hc, hd, List.mem_filter, and_assoc,
      and_comm, and_left_comm]

/-- Helper: `pyIndex` returns `none` exactly for absent values. -/
theorem pyIndex_eq_none_iff (x : String) (l : List String) :
    pyIndex x l = none ↔ x ∉ l := by
  induction l with
  | nil => simp [pyIndex]
  | cons y ys ih =>
    by_cases h : y = x
    · subst h
      simp [pyIndex]
    · simp [pyIndex, h, ih, Option.map_eq_none', eq_comm (a := x) (b := y)]

/-- Helper: the element at the position `pyIndex` found is the value looked for. -/
theorem pyIndex_getD (x : String) (l : List String) (i : Nat) (hd : String)
    (h : pyIndex x l = some i) : l.getD i hd = x := by
  induction l generalizing i with
  | nil => simp [pyIndex] at h
  | cons y ys ih =>
    by_cases hy : y = x
    · subst hy
      simp [pyIndex] at h
      subst h
      rfl
    · simp only [pyIndex, if_neg hy, Option.map_eq_some'] at h
      obtain ⟨j, hj, rfl⟩ := h
      simpa using ih j hj

/-- C10: the dropdown's initial value is the option at `state_options.index("CA")`:
when "CA" is an option the initial value is "CA" (and "CA" is not the sentinel
"All States"); when "CA" is not an option there is no initial value
(`list.index` raises `ValueError`). -/
theorem selected_state_initial_is_CA (t : Table) :
    ("CA" ∈ state_options t → selected_state_initial t = some "CA") ∧
    ("CA" ∉ state_options t → selected_state_initial t = none) ∧
    ("CA" : String) ≠ "All States" := by
  refine ⟨?_, ?_, by decide⟩
  · intro h
    rcases hpi : pyIndex "CA" (state_options t) with _ | i
    · exact absurd h ((pyIndex_eq_none_iff _ _).mp hpi)
    · rw [selected_state_initial, hpi, Option.map_some']
      exact congrArg some (pyIndex_getD _ _ _ _ hpi)
  · intro h
    rw [selected_state_initial, (pyIndex_eq_none_iff _ _).mpr h, Option.map_none']

/-- Helper: counting the rows that map to a given key equals counting that key
among the mapped-out values. -/
theorem countP_eq_count_filterMap {α β : Type} [DecidableEq β] (f : α → Option β) (b : β)
    (l : List α) : (l.countP fun a => f a = some b) = (l.filterMap f).count b := by
  induction l with
  | nil => rfl
  | cons a l ih =>
    rw [List.countP_cons]
    cases h : f a with
    | none => simp [List.filterMap_cons, h, ih]
    | some c => simp [List.filterMap_cons, h, List.count_cons, ih]

/-- Helper: counting the rows with a present key equals the number of
mapped-out values. -/
theorem countP_isSome_eq_length_filterMap {α β : Type} (f : α → Option β) (l : List α) :
    (l.countP fun a => (f a).isSome) = (l.filterMap f).length := by
  induction l with
  | nil => rfl
  | cons a l ih => cases h : f a <;> simp [List.filterMap_cons, h, List.countP_cons, ih]

/-- Helper, the group-by partition law: summing, over the distinct keys, the
number of rows carrying that key gives the number of rows with a present key. -/
theorem sum_counts_partition {α β : Type} [DecidableEq β] (f : α → Option β) (l : List α) :
    ((l.filterMap f).dedup.map fun b => l.countP fun a => f a = some b).sum
      = l.countP fun a => (f a).isSome := by
  rw [countP_isSome_eq_length_filterMap,
    List.map_congr_left fun b _ => countP_eq_count_filterMap f b l]
  exact List.sum_map_count_dedup_eq_length _

/-- C5: the per-state counts sum to the number of rows with a non-null
state code. -/
theorem state_counts_sum_to_nonnull_rows (t : Table) :
    ((state_counts t).map Prod.snd).sum = t.countP fun r => r.STATE.isSome := by
  rw [state_counts, stateKeys, List.map_map]
  exact sum_counts_partition Row.STATE t

/-- Helper: `dedup` commutes with `filter`. -/
theorem dedup_filter_comm {α : Type} [DecidableEq α] (p : α → Bool) (l : List α) :
    l.dedup.filter p = (l.filter p).dedup := by
  induction l with
  | nil => rfl
  | cons a l ih =>
    cases hp : p a with
    | false =>
      by_cases hm : a ∈ l
      · rw [List.dedup_cons_of_mem hm, List.filter_cons_of_neg (by simp [hp]), ih]
      · rw [List.dedup_cons_of_not_mem hm, List.filter_cons_of_neg (by simp [hp]),
          List.filter_cons_of_neg (by simp [hp]), ih]
    | true =>
      by_cases hm : a ∈ l
      · rw [List.dedup_cons_of_mem hm, List.filter_cons_of_pos hp,
          List.dedup_cons_of_mem (List.mem_filter.mpr ⟨hm, hp⟩), ih]
      · rw [List.dedup_cons_of_not_mem hm, List.filter_cons_of_pos hp,
          List.filter_cons_of_pos hp,
          List.dedup_cons_of_not_mem fun hc => hm (List.mem_filter.mp hc).1, ih]

/-- Helper: restricting the (year, state) keys to one state is the same as
extracting, from the rows of that state, their years paired with it. -/
theorem filterMap_year_state_restrict (s : String) (t : Table) :
    ((t.filterMap fun r => r.STATE.map fun c => (r.FIRE_YEAR, c)).filter
        fun k => k.2 = s)
      = t.filterMap fun r =>
          if r.STATE = some s then some (r.FIRE_YEAR, s) else none := by
  induction t with
  | nil => rfl
  | cons r t ih =>
    cases h : r.STATE with
    | none => simp [List.filterMap_cons, h, ih]
    | some c =>
      by_cases hs : c = s
      · subst hs
        simp [List.filterMap_cons, h, List.filter_cons, ih]
      · simp [List.filterMap_cons, h, List.filter_cons, hs, ih]

/-- C4: for every state, the yearly (year, state, count) entries of that state
summed over all years give the total count of rows of that state — which is
exactly the count `state_counts` holds for that state whenever it lists it. -/
theorem yearly_trends_sum_eq_state_count (t : Table) (s : String) :
    ((((yearly_trends t).filter fun x => x.2.1 = s).map fun x => x.2.2).sum
        = t.countP fun r => r.STATE = some s) ∧
    (∀ c : Nat, (s, c) ∈ state_counts t → c = t.countP fun r => r.STATE = some s) := by
  constructor
  · rw [yearly_trends, yearStateKeys, List.filter_map, List.map_map]
    show ((((t.filterMap fun r => r.STATE.map fun c => (r.FIRE_YEAR, c)).dedup.filter
        fun k => k.2 = s).map
          fun k => t.countP fun r => r.FIRE_YEAR = k.1 ∧ r.STATE = some k.2).sum = _)
    rw [dedup_filter_comm, filterMap_year_state_restrict]
    have hmem : ∀ k ∈ (t.filterMap fun r =>
        if r.STATE = some s then some (r.FIRE_YEAR, s) else none).dedup, k.2 = s := by
      intro k hk
      obtain ⟨r, _, hr⟩ := List.mem_filterMap.mp (List.mem_dedup.mp hk)
      by_cases h : r.STATE = some s
      · rw [if_pos h] at hr
        cases hr
        rfl
      · rw [if_neg h] at hr
        cases hr
    rw [List.map_congr_left fun k hk => ?_]
    · exact sum_counts_partition _ t |>.trans <| List.countP_congr fun r _ => by
        by_cases h : r.STATE = some s <;> simp [h]
    · refine List.countP_congr fun r _ => ?_
      have hk2 := hmem k hk
      constructor
      · intro hr
        have : r.STATE = some s := by
          rw [← hk2]
          exact (of_decide_eq_true hr).2
        simp only [decide_eq_true_eq] at hr ⊢
        rw [if_pos this]
        obtain ⟨h1, _⟩ := hr
        cases k with
        | mk k1 k2 =>
          simp only at h1 hk2
          rw [h1, hk2]
      · intro hr
        simp only [decide_eq_true_eq] at hr ⊢
        by_cases h : r.STATE = some s
        · rw [if_pos h] at hr
          cases hr
          exact ⟨rfl, by rw [h, hk2]⟩
        · rw [if_neg h] at hr
          cases hr
  · intro c hc
    obtain ⟨s', _, hs'⟩ := List.mem_map.mp hc
    obtain ⟨h1, h2⟩ := Prod.mk.injEq .. ▸ hs'
    rw [← h2, h1]

/-- C3: the render pass computes both count aggregates from the full table —
the duration/size/cause data-quality drop of lines 99-101 only reassigns the
table that feeds the dropdown views — and the aggregates ignore the dropped
columns entirely: rewriting the dates, fire size, cause (or any field other
than state and year) of every row leaves both aggregates unchanged. -/
theorem aggregates_unaffected_by_quality_drop :
    (∀ (t : Table) (sel : String),
        (runDashboard t sel).stateCountsOut = state_counts t ∧
        (runDashboard t sel).yearlyTrendsOut = yearly_trends t) ∧
    (∀ u : Row → Row,
        (∀ r, (u r).STATE = r.STATE ∧ (u r).FIRE_YEAR = r.FIRE_YEAR) →
        ∀ t : Table,
          state_counts (t.map u) = state_counts t ∧
          yearly_trends (t.map u) = yearly_trends t) := by
  refine ⟨fun t sel => ⟨rfl, rfl⟩, ?_⟩
  intro u hu t
  have hS : ∀ r, (u r).STATE = r.STATE := fun r => (hu r).1
  have hY : ∀ r, (u r).FIRE_YEAR = r.FIRE_YEAR := fun r => (hu r).2
  constructor
  · rw [state_counts, state_counts, stateKeys, stateKeys, List.filterMap_map]
    have hkeys : (Row.STATE ∘ u) = Row.STATE := funext fun r => hS r
    rw [hkeys]
    refine List.map_congr_left fun s _ => ?_
    congr 1
    rw [List.countP_map]
    exact List.countP_congr fun r _ => by simp [Function.comp, hS r]
  · rw [yearly_trends, yearly_trends, yearStateKeys, yearStateKeys, List.filterMap_map]
    have hkeys : ((fun r : Row => r.STATE.map fun s => (r.FIRE_YEAR, s)) ∘ u)
        = fun r : Row => r.STATE.map fun s => (r.FIRE_YEAR, s) := by
      funext r
      simp [Function.comp, hS r, hY r]
    rw [hkeys]
    refine List.map_congr_left fun k _ => ?_
    have hc : List.countP ((fun r => decide (r.FIRE_YEAR = k.1 ∧ r.STATE = some k.2)) ∘ u) t
        = List.countP (fun r => decide (r.FIRE_YEAR = k.1 ∧ r.STATE = some k.2)) t :=
      List.countP_congr fun r _ => by simp [Function.comp, hS r, hY r]
    rw [List.countP_map, hc]

/-- C9: the dropdown options are "All States" followed by the distinct
non-null state codes of the duration-filtered table in ascending order; a
state whose records were all dropped by that filter is not an option. -/
theorem state_options_shape (t : Table) :
    ∃ l : List String,
      state_options t = "All States" :: l ∧
      l.Sorted (· ≤ ·) ∧
      l.Nodup ∧
      (∀ s : String, s ∈ l ↔ ∃ r ∈ withDuration t, r.STATE = some s) ∧
      (∀ s : String, (¬ ∃ r ∈ withDuration t, r.STATE = some s) → s ∉ l) := by
  refine ⟨_, rfl, List.sorted_insertionSort _ _,
    ((List.perm_insertionSort _ _).nodup_iff).mpr (List.nodup_dedup _), ?_, ?_⟩
  · intro s
    rw [(List.perm_insertionSort _ _).mem_iff, List.mem_dedup, List.mem_filterMap]
  · intro s hs
    rw [(List.perm_insertionSort _ _).mem_iff, List.mem_dedup, List.mem_filterMap]
    exact hs

end Wildfire
